import Mathlib

/-!
Verification development for the vm-monitor API authentication core
(src/vm_monitor_api/app/security.py and the registration route in
src/vm_monitor_api/app/main.py), shallowly embedded in Lean 4.

Conventions:
* Byte sequences are `List Nat` with entries below 256.
* Python's unbounded `int` is `Int`; machine behaviour of the CPython
  standard library (`int()` parsing, `datetime.fromtimestamp` ranges)
  is modelled explicitly where the source relies on it.
* The server clock `datetime.now(timezone.utc)` is passed in explicitly
  as an integer `now` of Unix seconds (explicit state passing).
-/

set_option maxRecDepth 100000

namespace VMMonitor

/-! ## Python `int(str)` parsing (used for the timestamp header)

CPython's `int(s)` strips surrounding whitespace, allows one optional
sign, and accepts decimal digits with single underscores strictly
between digits.  We model the ASCII fragment (ASCII whitespace and
ASCII digits); CPython additionally accepts non-ASCII decimal digits
and Unicode whitespace, which no claim exercises. -/

def isPyWs (c : Char) : Bool :=
  c = ' ' || c = '\t' || c = '\n' || c = '\x0d' || c = '\x0b' || c = '\x0c'

def isAsciiDigit (c : Char) : Bool :=
  decide (48 ≤ c.toNat ∧ c.toNat ≤ 57)

def digitVal (c : Char) : Nat := c.toNat - 48

/-- Digits after the first one: a digit extends the accumulator, an
underscore must be immediately followed by a digit. -/
def digitsCore : List Char → Nat → Option Nat
  | [], acc => some acc
  | '_' :: c :: rest, acc =>
      if isAsciiDigit c then digitsCore rest (acc * 10 + digitVal c) else none
  | ['_'], _ => none
  | c :: rest, acc =>
      if isAsciiDigit c then digitsCore rest (acc * 10 + digitVal c) else none

/-- A nonempty run of decimal digits with single embedded underscores;
must start with a digit. -/
def parseDigits : List Char → Option Nat
  | [] => none
  | c :: rest => if isAsciiDigit c then digitsCore rest (digitVal c) else none

def stripWs (l : List Char) : List Char :=
  ((l.dropWhile isPyWs).reverse.dropWhile isPyWs).reverse

/-- Model of CPython `int(s)` for a text argument (ASCII fragment):
`some n` when the call returns `n`, `none` when it raises `ValueError`. -/
def pyInt (s : String) : Option Int :=
  match stripWs s.data with
  | '+' :: rest => (parseDigits rest).map (fun n => (n : Int))
  | '-' :: rest => (parseDigits rest).map (fun n => -(n : Int))
  | rest => (parseDigits rest).map (fun n => (n : Int))

/-! ## UTF-8 encoding and strict decoding

`str.encode('utf-8')` and `bytes.decode('utf-8')` from CPython.  The
decoder is strict: invalid lead bytes, truncated sequences, overlong
encodings, surrogate code points and values above U+10FFFF are errors
(`UnicodeDecodeError`). -/

def utf8EncodeChar (n : Nat) : List Nat :=
  if n < 128 then [n]
  else if n < 2048 then [192 + n / 64, 128 + n % 64]
  else if n < 65536 then [224 + n / 4096, 128 + n / 64 % 64, 128 + n % 64]
  else [240 + n / 262144, 128 + n / 4096 % 64, 128 + n / 64 % 64, 128 + n % 64]

def utf8EncodeChars : List Char → List Nat
  | [] => []
  | c :: cs => utf8EncodeChar c.toNat ++ utf8EncodeChars cs

/-- Model of `s.encode('utf-8')`. -/
def utf8Encode (s : String) : List Nat := utf8EncodeChars s.data

/-- Continuation byte 0x80..0xBF. -/
def contB (b : Nat) : Bool := decide (128 ≤ b ∧ b ≤ 191)

/-- Two-byte sequence after lead byte `b` (0xC2..0xDF): one continuation
byte. -/
def utf8Two (b : Nat) : List Nat → Option (Nat × List Nat)
  | c :: rest2 =>
      if contB c then some ((b - 192) * 64 + (c - 128), rest2) else none
  | [] => none

/-- Three-byte sequence after lead byte `b` (0xE0..0xEF): two
continuation bytes, decoded value at least 0x800 (no overlong) and not a
surrogate — exactly the sequences CPython's strict decoder accepts. -/
def utf8Three (b : Nat) : List Nat → Option (Nat × List Nat)
  | c :: d :: rest2 =>
      let v := (b - 224) * 4096 + (c - 128) * 64 + (d - 128)
      if contB c && contB d && decide (2048 ≤ v) &&
          decide (v < 55296 ∨ 57343 < v) then
        some (v, rest2)
      else none
  | _ => none

/-- Four-byte sequence after lead byte `b` (0xF0..0xF4): three
continuation bytes, decoded value in 0x10000..0x10FFFF. -/
def utf8Four (b : Nat) : List Nat → Option (Nat × List Nat)
  | c :: d :: e :: rest2 =>
      let v := (b - 240) * 262144 + (c - 128) * 4096 + (d - 128) * 64 +
        (e - 128)
      if contB c && contB d && contB e && decide (65536 ≤ v) &&
          decide (v ≤ 1114111) then
        some (v, rest2)
      else none
  | _ => none

/-- Decode one UTF-8 sequence: the code point and the remaining bytes;
`none` on any input CPython's strict decoder rejects (invalid lead byte,
truncated or invalid continuation, overlong form, surrogate, value
above U+10FFFF). -/
def utf8Step : List Nat → Option (Nat × List Nat)
  | [] => none
  | b :: rest =>
    if b < 128 then some (b, rest)
    else if b < 194 then none
    else if b ≤ 223 then utf8Two b rest
    else if b ≤ 239 then utf8Three b rest
    else if b ≤ 244 then utf8Four b rest
    else none

/-- Fuel-driven decoding loop; each step consumes at least one byte, so
fuel = length of the input never runs out. -/
def decodeAux : Nat → List Nat → Option (List Char)
  | _, [] => some []
  | 0, _ :: _ => none
  | fuel + 1, b :: rest =>
    match utf8Step (b :: rest) with
    | none => none
    | some (v, rest2) => (decodeAux fuel rest2).map (fun cs => Char.ofNat v :: cs)

/-- Model of `bytes.decode('utf-8')`: `some s` on success, `none` when
the call raises `UnicodeDecodeError`. -/
def decodeUtf8 (l : List Nat) : Option String :=
  (decodeAux l.length l).map (fun cs => String.mk cs)

/-! ## SHA-256 (the `hashlib.sha256` primitive used by the source)

Straight FIPS 180-4, on `List Nat` bytes, 32-bit words as `Nat` reduced
mod 2^32. -/

def w32 (n : Nat) : Nat := n % 4294967296

def rotr32 (n x : Nat) : Nat := w32 ((x >>> n) ||| (x <<< (32 - n)))

def bigSigma0 (x : Nat) : Nat := rotr32 2 x ^^^ rotr32 13 x ^^^ rotr32 22 x
def bigSigma1 (x : Nat) : Nat := rotr32 6 x ^^^ rotr32 11 x ^^^ rotr32 25 x
def smallSigma0 (x : Nat) : Nat := rotr32 7 x ^^^ rotr32 18 x ^^^ (x >>> 3)
def smallSigma1 (x : Nat) : Nat := rotr32 17 x ^^^ rotr32 19 x ^^^ (x >>> 10)
def chf (x y z : Nat) : Nat := (x &&& y) ^^^ ((x ^^^ 4294967295) &&& z)
def majf (x y z : Nat) : Nat := (x &&& y) ^^^ (x &&& z) ^^^ (y &&& z)

def shaK : List Nat :=
  [1116352408, 1899447441, 3049323471, 3921009573,
   961987163, 1508970993, 2453635748, 2870763221,
   3624381080, 310598401, 607225278, 1426881987,
   1925078388, 2162078206, 2614888103, 3248222580,
   3835390401, 4022224774, 264347078, 604807628,
   770255983, 1249150122, 1555081692, 1996064986,
   2554220882, 2821834349, 2952996808, 3210313671,
   3336571891, 3584528711, 113926993, 338241895,
   666307205, 773529912, 1294757372, 1396182291,
   1695183700, 1986661051, 2177026350, 2456956037,
   2730485921, 2820302411, 3259730800, 3345764771,
   3516065817, 3600352804, 4094571909, 275423344,
   430227734, 506948616, 659060556, 883997877,
   958139571, 1322822218, 1537002063, 1747873779,
   1955562222, 2024104815, 2227730452, 2361852424,
   2428436474, 2756734187, 3204031479, 3329325298]

def shaH0 : List Nat :=
  [1779033703, 3144134277, 1013904242, 2773480762,
   1359893119, 2600822924, 528734635, 1541459225]

/-- `k` bytes of `n`, big-endian. -/
def beBytes : Nat → Nat → List Nat
  | 0, _ => []
  | k + 1, n => beBytes k (n / 256) ++ [n % 256]

/-- SHA-256 padding: 0x80, zeros to 56 mod 64, 8-byte big-endian bit length. -/
def padMessage (msg : List Nat) : List Nat :=
  let L := msg.length
  let z := (119 - L % 64) % 64
  msg ++ 128 :: List.replicate z 0 ++ beBytes 8 (8 * L)

/-- Big-endian 32-bit words from bytes. -/
def toWords : List Nat → List Nat
  | a :: b :: c :: d :: rest =>
      (((a * 256 + b) * 256 + c) * 256 + d) :: toWords rest
  | _ => []

/-- Split into 64-byte blocks (fuel-driven structural recursion). -/
def blocksAux : Nat → List Nat → List (List Nat)
  | 0, _ => []
  | _, [] => []
  | fuel + 1, l => l.take 64 :: blocksAux fuel (l.drop 64)

/-- Message-schedule extension: the accumulator holds the words produced
so far, most recent first. -/
def extendW : Nat → List Nat → List Nat
  | 0, ws => ws
  | fuel + 1, ws =>
      let next := w32 (smallSigma1 (ws.getD 1 0) + ws.getD 6 0 +
                       smallSigma0 (ws.getD 14 0) + ws.getD 15 0)
      extendW fuel (next :: ws)

def scheduleOf (block : List Nat) : List Nat :=
  (extendW 48 (toWords block).reverse).reverse

def shaRound (st : List Nat) (kw : Nat × Nat) : List Nat :=
  match st with
  | [a, b, c, d, e, f, g, h] =>
      let t1 := w32 (h + bigSigma1 e + chf e f g + kw.1 + kw.2)
      let t2 := w32 (bigSigma0 a + majf a b c)
      [w32 (t1 + t2), a, b, c, w32 (d + t1), e, f, g]
  | st => st

def compressBlock (h : List Nat) (block : List Nat) : List Nat :=
  let st := (shaK.zip (scheduleOf block)).foldl shaRound h
  (h.zip st).map (fun p => w32 (p.1 + p.2))

/-- SHA-256 of a byte sequence, as 32 bytes. -/
def sha256 (msg : List Nat) : List Nat :=
  let padded := padMessage msg
  let final := (blocksAux padded.length padded).foldl compressBlock shaH0
  (final.map (beBytes 4)).foldr (fun a acc => a ++ acc) []

/-! ## HMAC-SHA256 (the `hmac` module primitive used by the source) -/

def hmacSha256 (key msg : List Nat) : List Nat :=
  let k0 := if 64 < key.length then sha256 key else key
  let k := k0 ++ List.replicate (64 - k0.length) 0
  let ipadKey := k.map (fun b => b ^^^ 54)
  let opadKey := k.map (fun b => b ^^^ 92)
  sha256 (opadKey ++ sha256 (ipadKey ++ msg))

/-! ## Base64 (the `base64.b64encode` primitive used by the source) -/

def b64Alphabet : List Char :=
  "ABCDEFGHIJKLMNOPQRSTUVWXYZabcdefghijklmnopqrstuvwxyz0123456789+/".data

def b64Char (n : Nat) : Char := b64Alphabet.getD n 'A'

def b64encodeChars : List Nat → List Char
  | a :: b :: c :: rest =>
      let n := (a * 256 + b) * 256 + c
      b64Char (n / 262144) :: b64Char (n / 4096 % 64) ::
        b64Char (n / 64 % 64) :: b64Char (n % 64) :: b64encodeChars rest
  | [a, b] =>
      let n := (a * 256 + b) * 4
      [b64Char (n / 4096), b64Char (n / 64 % 64), b64Char (n % 64), '=']
  | [a] =>
      let n := a * 16
      [b64Char (n / 64), b64Char (n % 64), '=', '=']
  | [] => []

/-- Model of `base64.b64encode(bytes).decode('utf-8')`. -/
def b64encode (l : List Nat) : String := String.mk (b64encodeChars l)

/-! ## The request object

`verify_hmac_signature` receives the framework `Request` and reads only
`request.method` and `request.url.path`; `request.url.path` is the path
component with the query string already excluded, so the query is a
separate field here and the verifier never touches it. -/

structure Request where
  method : String
  path : String
  query : String
  deriving DecidableEq

/-- Exceptions that can escape the authentication code: `OSError` and
`OverflowError` from `datetime.fromtimestamp` (only `ValueError` is
caught), and `UnicodeDecodeError` from `body_bytes.decode('utf-8')`
(outside the `try` block). -/
inductive PyExc
  | osError
  | overflowError
  | unicodeDecodeError
  deriving DecidableEq

/-- Observed outcome of CPython's `datetime.fromtimestamp(t, timezone.utc)`
on an integer `t` (CPython 3.11, 64-bit linux):
* years 1..9999, i.e. `-62135596800 ≤ t ≤ 253402300799`: succeeds;
* beyond that, while the internally computed year fits a C int
  (`-67768040609740800 ≤ t ≤ 67768036191676799`): raises `ValueError`
  ("year ... is out of range");
* beyond that, while `t` fits a signed 64-bit integer: raises `OSError`;
* otherwise: raises `OverflowError`. -/
inductive FtsResult
  | ok
  | valueError
  | osError
  | overflowError
  deriving DecidableEq

def fromtimestampResult (t : Int) : FtsResult :=
  if -62135596800 ≤ t ∧ t ≤ 253402300799 then .ok
  else if -67768040609740800 ≤ t ∧ t ≤ 67768036191676799 then .valueError
  else if -9223372036854775808 ≤ t ∧ t ≤ 9223372036854775807 then .osError
  else .overflowError

/-- `TIMESTAMP_VALIDITY_SECONDS = 300` in security.py. -/
def TIMESTAMP_VALIDITY_SECONDS : Nat := 300

/-- Step 1 of `verify_hmac_signature` (the `try` block): parse the
timestamp header with `int(...)`, convert with `datetime.fromtimestamp`,
and compare `abs((current_time - request_timestamp).total_seconds())`
against the validity window.  `int` or `fromtimestamp` raising
`ValueError` is caught and yields `return False` (log line "Invalid
timestamp format"); an exceeded window yields `return False` (log line
"Timestamp validation failed"); `OSError`/`OverflowError` escape. -/
inductive TsCheck
  | retMalformed
  | retOutOfWindow
  | raised (e : PyExc)
  | pass
  deriving DecidableEq

def timestamp_check (now : Int) (timestamp_str : String) : TsCheck :=
  match pyInt timestamp_str with
  | none => .retMalformed
  | some t =>
    match fromtimestampResult t with
    | .valueError => .retMalformed
    | .osError => .raised .osError
    | .overflowError => .raised .overflowError
    | .ok =>
      if TIMESTAMP_VALIDITY_SECONDS < (now - t).natAbs then .retOutOfWindow
      else .pass

/-- `str.upper()` as used on `request.method` (HTTP method names are
ASCII, where Python's `upper` agrees with per-character ASCII
upper-casing). -/
def pyUpper (s : String) : String := String.mk (s.data.map Char.toUpper)

/-- Step 2 of `verify_hmac_signature`: the canonical message
`f"{timestamp_str}\n{method}\n{path}\n{body_str}"`, where the caller
passes `method = request.method.upper()` (modelled by applying `pyUpper`
here, as the spec's `computeSignature` does) and
`path = request.url.path`. -/
def message_to_sign (timestamp_str method path body_str : String) : String :=
  timestamp_str ++ "\n" ++ pyUpper method ++ "\n" ++ path ++ "\n" ++ body_str

/-- Steps 2-3 of `verify_hmac_signature`, the spec's `computeSignature`:
HMAC-SHA256 over the UTF-8 bytes of the canonical message, keyed with
the UTF-8 bytes of the secret; the raw 32-byte MAC. -/
def computeSignature (secret timestamp_str method path body_str : String) :
    List Nat :=
  hmacSha256 (utf8Encode secret)
    (utf8Encode (message_to_sign timestamp_str method path body_str))

/-- `hmac.compare_digest` on two byte sequences: value-level equality
(the constant-time execution profile of the CPython primitive is not
representable here). -/
def compareDigest (a b : List Nat) : Bool := a == b

/-- Result of `verify_hmac_signature`, one constructor per distinct
`return`/raise site:
* `invalidTimestampFormat` — `return False` after a caught `ValueError`;
* `timestampOutOfWindow` — `return False` from the window comparison;
* `raised e` — an exception escapes the function;
* `mismatch` — final `return` with `compare_digest` false;
* `valid` — final `return` with `compare_digest` true. -/
inductive VerifyResult
  | invalidTimestampFormat
  | timestampOutOfWindow
  | raised (e : PyExc)
  | mismatch
  | valid
  deriving DecidableEq

/-- The boolean the Python function returns, `none` when it raises. -/
def VerifyResult.toBool : VerifyResult → Option Bool
  | .valid => some true
  | .raised _ => none
  | _ => some false

/-- `verify_hmac_signature(api_key_secret, timestamp_str,
signature_from_request, request, body_bytes)` from security.py, with the
server clock `now` (Unix seconds) passed explicitly. -/
def verify_hmac_signature (now : Int) (api_key_secret timestamp_str
    signature_from_request : String) (request : Request)
    (body_bytes : List Nat) : VerifyResult :=
  match timestamp_check now timestamp_str with
  | .retMalformed => .invalidTimestampFormat
  | .retOutOfWindow => .timestampOutOfWindow
  | .raised e => .raised e
  | .pass =>
    match decodeUtf8 body_bytes with
    | none => .raised .unicodeDecodeError
    | some body_str =>
      let expected_signature_base64 :=
        b64encode (computeSignature api_key_secret timestamp_str
          request.method request.path body_str)
      if compareDigest (utf8Encode expected_signature_base64)
          (utf8Encode signature_from_request) then .valid
      else .mismatch

/-- The parsed timestamp header, if any, lies in the band where
`datetime.fromtimestamp` either succeeds or raises only the caught
`ValueError` — i.e. the verifier cannot hit the uncaught
`OSError`/`OverflowError` paths of `fromtimestampResult`. -/
def tsSafe (ts : String) : Bool :=
  match pyInt ts with
  | none => true
  | some t => decide (-67768040609740800 ≤ t ∧ t ≤ 67768036191676799)

/-! ## The Authentication Gate (`authenticate_agent` in security.py)

The source raises a single `HTTPException(401)` for every failure after
header extraction; the distinct internal branches (which are what the
distinct log lines record) are kept apart here as `AuthReason`
constructors, following the spec's `AuthResult` taxonomy. -/

inductive AuthReason
  | unknownInstance
  | malformedTimestamp
  | timestampOutOfWindow
  | signatureMismatch
  deriving DecidableEq

inductive AuthOutcome
  | rejected (reason : AuthReason)
  | raised (e : PyExc)
  | authenticated (instanceId : String)
  deriving DecidableEq

/-- `authenticate_agent` from security.py: look up
`AGENT_API_KEYS.get(x_instance_id)`; `if not agent_secret_key` (None or
the empty string) reject; otherwise read the raw body and call
`verify_hmac_signature`. -/
def authenticate_agent (registry : String → Option String)
    (x_instance_id x_request_timestamp x_request_signature : String)
    (request : Request) (body_bytes : List Nat) (now : Int) : AuthOutcome :=
  match registry x_instance_id with
  | none => .rejected .unknownInstance
  | some agent_secret_key =>
    if agent_secret_key = "" then .rejected .unknownInstance
    else
      match verify_hmac_signature now agent_secret_key x_request_timestamp
          x_request_signature request body_bytes with
      | .valid => .authenticated x_instance_id
      | .raised e => .raised e
      | .invalidTimestampFormat => .rejected .malformedTimestamp
      | .timestampOutOfWindow => .rejected .timestampOutOfWindow
      | .mismatch => .rejected .signatureMismatch

/-- The protected-endpoint gate including header extraction: the three
headers are declared `Header(...)` (required), so a missing header is
rejected by the framework with a 422 client error before
`authenticate_agent` runs; a present (possibly empty) value is passed
through unchanged. -/
inductive GateOutcome
  | missingHeader
  | auth (o : AuthOutcome)
  deriving DecidableEq

def gate (registry : String → Option String)
    (instanceIdHeader timestampHeader signatureHeader : Option String)
    (request : Request) (body_bytes : List Nat) (now : Int) : GateOutcome :=
  match instanceIdHeader, timestampHeader, signatureHeader with
  | some i, some t, some s =>
      .auth (authenticate_agent registry i t s request body_bytes now)
  | _, _, _ => .missingHeader

/-- `register_agent` in main.py, restricted to the key registry it
updates: `security.AGENT_API_KEYS[str(payload.instance_id)] =
payload.agent_api_key` — an unconditional overwrite, on a route with no
authentication dependency. -/
def register_agent (registry : String → Option String)
    (instance_id agent_api_key : String) : String → Option String :=
  fun x => if x = instance_id then some agent_api_key else registry x

/-- The ephemeral per-call request data of the spec's `SignedRequest`. -/
structure SignedRequest where
  instanceId : String
  timestamp : String
  signature : String
  request : Request
  rawBody : List Nat

/-- One pass of the Authentication Gate over the server's key registry:
`authenticate_agent` contains no assignment to `AGENT_API_KEYS` (or any
other server state), so the state component is returned unchanged —
this definition records exactly the reads/writes the source performs. -/
def gateStep (registry : String → Option String) (r : SignedRequest)
    (now : Int) : AuthOutcome × (String → Option String) :=
  (authenticate_agent registry r.instanceId r.timestamp r.signature
    r.request r.rawBody now, registry)

end VMMonitor

namespace VMMonitor

/-- SHA-256 known-answer test: the empty message. -/
theorem sha256_empty_kat :
    sha256 [] =
      [227, 176, 196, 66, 152, 252, 28, 20, 154, 251, 244, 200, 153, 111,
       185, 36, 39, 174, 65, 228, 100, 155, 147, 76, 164, 149, 153, 27,
       120, 82, 184, 85] := by
  decide

/-- SHA-256 known-answer test: "abc". -/
theorem sha256_abc_kat :
    sha256 (utf8Encode "abc") =
      [186, 120, 22, 191, 143, 1, 207, 234, 65, 65, 64, 222, 93, 174, 34,
       35, 176, 3, 97, 163, 150, 23, 122, 156, 180, 16, 255, 97, 242, 0,
       21, 173] := by
  decide

/-- HMAC-SHA256 known-answer test (RFC-style: key "key", fox message),
base64-encoded as the source transmits it. -/
theorem hmac_b64_kat :
    b64encode
      (hmacSha256 (utf8Encode "key")
        (utf8Encode "The quick brown fox jumps over the lazy dog")) =
      "97yD9DBThCSxMpjmqm+xQ+9NWaFJRhdZl0edvC0aPNg=" := by
  decide

end VMMonitor

namespace VMMonitor

/-! ## Helper lemmas: UTF-8 round trip -/

/-- `Char.ofNat` inverts `Char.toNat` on valid code points. -/
theorem toNat_ofNat_char (n : Nat) (h : n.isValidChar) :
    (Char.ofNat n).toNat = n := by
  unfold Char.ofNat
  rw [dif_pos h]
  simp [Char.ofNatAux, Char.toNat, UInt32.toNat, BitVec.toNat_ofNatLt]

theorem utf8Two_sound (b v : Nat) (rest r2 : List Nat)
    (hb : 194 ≤ b ∧ b ≤ 223) (h : utf8Two b rest = some (v, r2)) :
    v.isValidChar ∧ utf8EncodeChar v ++ r2 = b :: rest := by
  match rest with
  | [] => simp [utf8Two] at h
  | c :: rest2 =>
    simp only [utf8Two] at h
    split at h
    · rename_i hc
      have hc' := of_decide_eq_true hc
      simp only [Option.some.injEq, Prod.mk.injEq] at h
      obtain ⟨h1, h2⟩ := h
      subst h1; subst h2
      refine ⟨Or.inl (by omega), ?_⟩
      unfold utf8EncodeChar
      rw [if_neg (by omega), if_pos (by omega)]
      simp only [List.cons_append, List.nil_append, List.cons.injEq]
      exact ⟨by omega, by omega, trivial⟩
    · exact absurd h (by simp)

theorem utf8Three_sound (b v : Nat) (rest r2 : List Nat)
    (hb : 224 ≤ b ∧ b ≤ 239) (h : utf8Three b rest = some (v, r2)) :
    v.isValidChar ∧ utf8EncodeChar v ++ r2 = b :: rest := by
  match rest with
  | [] => simp [utf8Three] at h
  | [c] => simp [utf8Three] at h
  | c :: d :: rest2 =>
    simp only [utf8Three] at h
    split at h
    · rename_i hcond
      simp only [Bool.and_eq_true, decide_eq_true_eq, contB] at hcond
      obtain ⟨⟨⟨hc, hd⟩, hlo⟩, hhi⟩ := hcond
      simp only [Option.some.injEq, Prod.mk.injEq] at h
      obtain ⟨h1, h2⟩ := h
      subst h1; subst h2
      constructor
      · rcases hhi with hlt | hgt
        · exact Or.inl hlt
        · exact Or.inr ⟨by omega, by omega⟩
      · unfold utf8EncodeChar
        rw [if_neg (by omega), if_neg (by omega), if_pos (by omega)]
        simp only [List.cons_append, List.nil_append, List.cons.injEq]
        exact ⟨by omega, by omega, by omega, trivial⟩
    · exact absurd h (by simp)

theorem utf8Four_sound (b v : Nat) (rest r2 : List Nat)
    (hb : 240 ≤ b ∧ b ≤ 244) (h : utf8Four b rest = some (v, r2)) :
    v.isValidChar ∧ utf8EncodeChar v ++ r2 = b :: rest := by
  match rest with
  | [] => simp [utf8Four] at h
  | [c] => simp [utf8Four] at h
  | [c, d] => simp [utf8Four] at h
  | c :: d :: e :: rest2 =>
    simp only [utf8Four] at h
    split at h
    · rename_i hcond
      simp only [Bool.and_eq_true, decide_eq_true_eq, contB] at hcond
      obtain ⟨⟨⟨⟨hc, hd⟩, he⟩, hlo⟩, hhi⟩ := hcond
      simp only [Option.some.injEq, Prod.mk.injEq] at h
      obtain ⟨h1, h2⟩ := h
      subst h1; subst h2
      constructor
      · exact Or.inr ⟨by omega, by omega⟩
      · unfold utf8EncodeChar
        rw [if_neg (by omega), if_neg (by omega), if_neg (by omega)]
        simp only [List.cons_append, List.nil_append, List.cons.injEq]
        exact ⟨by omega, by omega, by omega, by omega, trivial⟩
    · exact absurd h (by simp)

/-- A successful `utf8Step` yields a valid code point whose encoding
reproduces the consumed bytes. -/
theorem utf8Step_sound (l : List Nat) (v : Nat) (rest : List Nat)
    (h : utf8Step l = some (v, rest)) :
    v.isValidChar ∧ utf8EncodeChar v ++ rest = l := by
  match l with
  | [] => simp [utf8Step] at h
  | b :: r =>
    simp only [utf8Step] at h
    split at h
    · rename_i hb
      simp only [Option.some.injEq, Prod.mk.injEq] at h
      obtain ⟨h1, h2⟩ := h
      subst h1; subst h2
      refine ⟨Or.inl (by omega), ?_⟩
      unfold utf8EncodeChar
      rw [if_pos hb]
      rfl
    · split at h
      · exact absurd h (by simp)
      · split at h
        · rename_i h1 h2 h3
          exact utf8Two_sound b v r rest ⟨by omega, h3⟩ h
        · split at h
          · rename_i h1 h2 h3 h4
            exact utf8Three_sound b v r rest ⟨by omega, h4⟩ h
          · split at h
            · rename_i h1 h2 h3 h4 h5
              exact utf8Four_sound b v r rest ⟨by omega, h5⟩ h
            · exact absurd h (by simp)

/-- Re-encoding a successfully decoded byte list gives back the list. -/
theorem decodeAux_sound (fuel : Nat) (l : List Nat) (cs : List Char)
    (h : decodeAux fuel l = some cs) : utf8EncodeChars cs = l := by
  induction fuel generalizing l cs with
  | zero =>
    match l with
    | [] =>
      simp only [decodeAux, Option.some.injEq] at h
      subst h; rfl
    | b :: rest => simp [decodeAux] at h
  | succ fuel ih =>
    match l with
    | [] =>
      simp only [decodeAux, Option.some.injEq] at h
      subst h; rfl
    | b :: rest =>
      simp only [decodeAux] at h
      cases hstep : utf8Step (b :: rest) with
      | none => rw [hstep] at h; exact absurd h (by simp)
      | some vr =>
        obtain ⟨v, rest2⟩ := vr
        rw [hstep] at h
        simp only [Option.map_eq_some'] at h
        obtain ⟨cs1, hdec, hcs⟩ := h
        subst hcs
        obtain ⟨hvalid, henc⟩ := utf8Step_sound _ _ _ hstep
        simp only [utf8EncodeChars, toNat_ofNat_char _ hvalid, ih _ _ hdec]
        exact henc

/-- `bytes.decode('utf-8')` followed by `str.encode('utf-8')` is the
identity on the original bytes: the decoded text stands for exactly the
transmitted body. -/
theorem utf8Encode_decodeUtf8 (l : List Nat) (s : String)
    (h : decodeUtf8 l = some s) : utf8Encode s = l := by
  simp only [decodeUtf8, Option.map_eq_some'] at h
  obtain ⟨cs, hdec, hs⟩ := h
  subst hs
  exact decodeAux_sound _ _ _ hdec

theorem utf8EncodeChars_append (a b : List Char) :
    utf8EncodeChars (a ++ b) = utf8EncodeChars a ++ utf8EncodeChars b := by
  induction a with
  | nil => rfl
  | cons c cs ih => simp [utf8EncodeChars, ih]

/-- `str.encode` is a monoid homomorphism for string append. -/
theorem utf8Encode_append (a b : String) :
    utf8Encode (a ++ b) = utf8Encode a ++ utf8Encode b := by
  simp [utf8Encode, String.data_append, utf8EncodeChars_append]

end VMMonitor

namespace VMMonitor

/-! ## Helper lemmas: the verification stages -/

theorem timestamp_check_pass (now t : Int) (ts : String)
    (hp : pyInt ts = some t) (hr : fromtimestampResult t = .ok)
    (hw : (now - t).natAbs ≤ 300) : timestamp_check now ts = .pass := by
  simp only [timestamp_check, hp, hr]
  exact if_neg (Nat.not_lt.mpr hw)

theorem timestamp_check_window (now t : Int) (ts : String)
    (hp : pyInt ts = some t) (hr : fromtimestampResult t = .ok)
    (hw : 300 < (now - t).natAbs) :
    timestamp_check now ts = .retOutOfWindow := by
  simp only [timestamp_check, hp, hr]
  exact if_pos hw

/-- After a passing timestamp check and a decodable body, the verifier
reduces to the constant-time signature comparison. -/
theorem verify_eq_of_pass (now : Int) (secret ts sig : String)
    (req : Request) (body : List Nat) (s : String)
    (hts : timestamp_check now ts = .pass) (hb : decodeUtf8 body = some s) :
    verify_hmac_signature now secret ts sig req body =
      (if compareDigest
          (utf8Encode (b64encode
            (computeSignature secret ts req.method req.path s)))
          (utf8Encode sig) then .valid else .mismatch) := by
  unfold verify_hmac_signature
  rw [hts, hb]

theorem verify_decode_fail (now : Int) (secret ts sig : String)
    (req : Request) (body : List Nat)
    (hts : timestamp_check now ts = .pass) (hd : decodeUtf8 body = none) :
    verify_hmac_signature now secret ts sig req body =
      .raised .unicodeDecodeError := by
  simp only [verify_hmac_signature, hts, hd]

theorem verify_mismatch (now : Int) (secret ts sig : String)
    (req : Request) (body : List Nat) (s : String)
    (hts : timestamp_check now ts = .pass) (hb : decodeUtf8 body = some s)
    (hdiff : utf8Encode sig ≠
      utf8Encode (b64encode (computeSignature secret ts req.method req.path s))) :
    verify_hmac_signature now secret ts sig req body = .mismatch := by
  rw [verify_eq_of_pass now secret ts sig req body s hts hb]
  rw [if_neg]
  simp only [compareDigest, beq_iff_eq]
  exact fun hEq => hdiff hEq.symm

/-- The verifier accepts its own recomputed signature once the
timestamp check passes and the body decodes. -/
theorem verify_self_valid (now t : Int) (secret ts : String)
    (req : Request) (body : List Nat) (s : String)
    (hp : pyInt ts = some t) (hr : fromtimestampResult t = .ok)
    (hw : (now - t).natAbs ≤ 300) (hb : decodeUtf8 body = some s) :
    verify_hmac_signature now secret ts
      (b64encode (computeSignature secret ts req.method req.path s))
      req body = .valid := by
  rw [verify_eq_of_pass now secret ts _ req body s
    (timestamp_check_pass now t ts hp hr hw) hb]
  simp [compareDigest]

/-- A `valid` verdict implies a decodable body whose recomputed
signature compares equal to the claimed one. -/
theorem verify_valid_elim (now : Int) (secret ts sig : String)
    (req : Request) (body : List Nat)
    (h : verify_hmac_signature now secret ts sig req body = .valid) :
    ∃ s, decodeUtf8 body = some s ∧
      compareDigest
        (utf8Encode (b64encode
          (computeSignature secret ts req.method req.path s)))
        (utf8Encode sig) = true := by
  cases htc : timestamp_check now ts with
  | pass =>
    cases hd : decodeUtf8 body with
    | none =>
      rw [verify_decode_fail now secret ts sig req body htc hd] at h
      exact absurd h (by simp)
    | some s =>
      rw [verify_eq_of_pass now secret ts sig req body s htc hd] at h
      split at h
      · rename_i hcmp
        exact ⟨s, rfl, hcmp⟩
      · exact absurd h (by simp)
  | retMalformed =>
    have hv : verify_hmac_signature now secret ts sig req body =
        .invalidTimestampFormat := by
      simp only [verify_hmac_signature, htc]
    rw [hv] at h
    exact absurd h (by simp)
  | retOutOfWindow =>
    have hv : verify_hmac_signature now secret ts sig req body =
        .timestampOutOfWindow := by
      simp only [verify_hmac_signature, htc]
    rw [hv] at h
    exact absurd h (by simp)
  | raised e =>
    have hv : verify_hmac_signature now secret ts sig req body =
        .raised e := by
      simp only [verify_hmac_signature, htc]
    rw [hv] at h
    exact absurd h (by simp)

/-- With a registered, non-empty secret, the gate's verdict is the
verifier's branch. -/
theorem authenticate_of_verify (registry : String → Option String)
    (iid ts sig k : String) (req : Request) (body : List Nat) (now : Int)
    (hreg : registry iid = some k) (hk : k ≠ "") :
    authenticate_agent registry iid ts sig req body now =
      (match verify_hmac_signature now k ts sig req body with
       | .valid => .authenticated iid
       | .raised e => .raised e
       | .invalidTimestampFormat => .rejected .malformedTimestamp
       | .timestampOutOfWindow => .rejected .timestampOutOfWindow
       | .mismatch => .rejected .signatureMismatch) := by
  simp only [authenticate_agent, hreg]
  rw [if_neg hk]

/-! ## Claims -/

/-- C1 (corrected): the engine-computed signature verifies, for every
secret, method, path and query, provided the timestamp header parses to
a representable value within the 300-second window of the server clock
and the body decodes as UTF-8 — `verify_hmac_signature` performs the
timestamp checks itself, so the round trip stated unconditionally over
all timestamp strings is false (see the counterexample). -/
theorem roundtrip_verify_self (now t : Int) (secret ts : String)
    (req : Request) (body : List Nat) (s : String)
    (hp : pyInt ts = some t) (hr : fromtimestampResult t = .ok)
    (hw : (now - t).natAbs ≤ 300) (hb : decodeUtf8 body = some s) :
    verify_hmac_signature now secret ts
      (b64encode (computeSignature secret ts req.method req.path s))
      req body = .valid :=
  verify_self_valid now t secret ts req body s hp hr hw hb

/-- C1: the round trip as literally stated fails on an unparseable
timestamp header: the verifier rejects before comparing signatures. -/
theorem roundtrip_verify_self_counterexample :
    verify_hmac_signature 1760227200 "secret" "not-a-number"
      (b64encode (computeSignature "secret" "not-a-number" "POST"
        "/v1/agent/metrics" ""))
      ⟨"POST", "/v1/agent/metrics", ""⟩ [] ≠ .valid := by
  decide

theorem roundtrip_verify_self_witness :
    pyInt "1760227200" = some 1760227200 ∧
    fromtimestampResult 1760227200 = .ok ∧
    ((1760227200 : Int) - 1760227200).natAbs ≤ 300 ∧
    decodeUtf8 [] = some "" ∧
    verify_hmac_signature 1760227200 "k" "1760227200"
      (b64encode (computeSignature "k" "1760227200" "POST"
        "/v1/agent/metrics" ""))
      ⟨"POST", "/v1/agent/metrics", ""⟩ [] = .valid :=
  ⟨by decide, by decide, by decide, by decide,
    roundtrip_verify_self 1760227200 1760227200 "k" "1760227200"
      ⟨"POST", "/v1/agent/metrics", ""⟩ [] ""
      (by decide) (by decide) (by decide) (by decide)⟩

/-- C3 (confirmed): for a timestamp header parsing to a representable
integer `t`, the verifier rejects for the window reason exactly when
`|now − t| > 300`; hence `t = now ± 300` passes the window check and
`t = now ± 301` fails, symmetrically for past and future skew. -/
theorem window_boundary (now t : Int) (secret ts sig : String)
    (req : Request) (body : List Nat)
    (hp : pyInt ts = some t) (hr : fromtimestampResult t = .ok) :
    verify_hmac_signature now secret ts sig req body = .timestampOutOfWindow
      ↔ 300 < (now - t).natAbs := by
  constructor
  · intro h
    by_contra hn
    rw [Nat.not_lt] at hn
    have hts := timestamp_check_pass now t ts hp hr hn
    cases hd : decodeUtf8 body with
    | none =>
      rw [verify_decode_fail now secret ts sig req body hts hd] at h
      exact absurd h (by simp)
    | some s =>
      rw [verify_eq_of_pass now secret ts sig req body s hts hd] at h
      split at h <;> simp at h
  · intro h
    simp only [verify_hmac_signature, timestamp_check_window now t ts hp hr h]

theorem window_boundary_witness :
    pyInt "1301" = some 1301 ∧ fromtimestampResult 1301 = .ok ∧
    (verify_hmac_signature 1000 "k" "1301" "sig"
        ⟨"POST", "/v1/agent/metrics", ""⟩ [] = .timestampOutOfWindow
      ↔ 300 < ((1000 : Int) - 1301).natAbs) :=
  ⟨by decide, by decide,
    window_boundary 1000 1301 "k" "1301" "sig"
      ⟨"POST", "/v1/agent/metrics", ""⟩ [] (by decide) (by decide)⟩

end VMMonitor

namespace VMMonitor

/-- C2 (confirmed): the byte sequence fed to HMAC-SHA256 is exactly the
raw timestamp header, the upper-cased method, the query-free path and
the raw body bytes, joined by single LF bytes with no trailing newline
(an empty body contributes an empty final segment); and the verifier's
verdict is independent of the query string. -/
theorem canonical_message (ts method path q q' : String) (body : List Nat)
    (s : String) (now : Int) (secret sig : String)
    (hb : decodeUtf8 body = some s) :
    utf8Encode (message_to_sign ts method path s) =
      utf8Encode ts ++ [10] ++ utf8Encode (pyUpper method) ++ [10] ++
        utf8Encode path ++ [10] ++ body
    ∧ verify_hmac_signature now secret ts sig ⟨method, path, q⟩ body =
      verify_hmac_signature now secret ts sig ⟨method, path, q'⟩ body := by
  constructor
  · have hsb : utf8Encode s = body := utf8Encode_decodeUtf8 body s hb
    have h10 : utf8Encode "\n" = [10] := by decide
    rw [← hsb]
    simp only [message_to_sign, utf8Encode_append, h10, List.append_assoc]
  · rfl

theorem canonical_message_witness :
    decodeUtf8 [123, 125] = some "\x7b\x7d" ∧
    (utf8Encode (message_to_sign "1760227200" "post" "/v1/agent/metrics" "{}") =
      utf8Encode "1760227200" ++ [10] ++ utf8Encode (pyUpper "post") ++ [10] ++
        utf8Encode "/v1/agent/metrics" ++ [10] ++ [123, 125]
    ∧ verify_hmac_signature 0 "k" "1760227200" "sig"
        ⟨"post", "/v1/agent/metrics", "a=1"⟩ [123, 125] =
      verify_hmac_signature 0 "k" "1760227200" "sig"
        ⟨"post", "/v1/agent/metrics", "b=2"⟩ [123, 125]) :=
  ⟨by decide,
    canonical_message "1760227200" "post" "/v1/agent/metrics" "a=1" "b=2"
      [123, 125] "{}" 0 "k" "sig" (by decide)⟩

/-- C4 (corrected): for a registered instance with a non-empty secret,
the gate reaches three mutually distinct rejection branches — the
distinct log lines of security.py, matching the spec's `AuthResult`
reasons: unparseable timestamp → `malformedTimestamp`; parseable,
representable, out-of-window timestamp → `timestampOutOfWindow`;
in-window timestamp with a non-matching signature →
`signatureMismatch`.  The claim as stated is false in one corner: a
parseable timestamp whose value lies outside `datetime`'s representable
years is rejected through the caught-`ValueError` branch as
`malformedTimestamp`, not as `timestampOutOfWindow` (see the
counterexample). -/
theorem distinct_rejection_reasons (registry : String → Option String)
    (iid secret ts_m ts_w ts sig : String) (req : Request)
    (body : List Nat) (now t_w t : Int) (s : String)
    (hreg : registry iid = some secret) (hne : secret ≠ "")
    (h1 : pyInt ts_m = none)
    (h2p : pyInt ts_w = some t_w) (h2r : fromtimestampResult t_w = .ok)
    (h2w : 300 < (now - t_w).natAbs)
    (h3p : pyInt ts = some t) (h3r : fromtimestampResult t = .ok)
    (h3w : (now - t).natAbs ≤ 300) (h3b : decodeUtf8 body = some s)
    (h3s : utf8Encode sig ≠
      utf8Encode (b64encode (computeSignature secret ts req.method req.path s))) :
    authenticate_agent registry iid ts_m sig req body now =
        .rejected .malformedTimestamp
    ∧ authenticate_agent registry iid ts_w sig req body now =
        .rejected .timestampOutOfWindow
    ∧ authenticate_agent registry iid ts sig req body now =
        .rejected .signatureMismatch
    ∧ AuthReason.malformedTimestamp ≠ AuthReason.timestampOutOfWindow
    ∧ AuthReason.malformedTimestamp ≠ AuthReason.signatureMismatch
    ∧ AuthReason.timestampOutOfWindow ≠ AuthReason.signatureMismatch := by
  refine ⟨?_, ?_, ?_, by simp, by simp, by simp⟩
  · rw [authenticate_of_verify registry iid ts_m sig secret req body now
      hreg hne]
    have htc : timestamp_check now ts_m = .retMalformed := by
      simp only [timestamp_check, h1]
    have hv : verify_hmac_signature now secret ts_m sig req body =
        .invalidTimestampFormat := by
      simp only [verify_hmac_signature, htc]
    rw [hv]
  · rw [authenticate_of_verify registry iid ts_w sig secret req body now
      hreg hne]
    have hv : verify_hmac_signature now secret ts_w sig req body =
        .timestampOutOfWindow := by
      simp only [verify_hmac_signature,
        timestamp_check_window now t_w ts_w h2p h2r h2w]
    rw [hv]
  · rw [authenticate_of_verify registry iid ts sig secret req body now
      hreg hne]
    rw [verify_mismatch now secret ts sig req body s
      (timestamp_check_pass now t ts h3p h3r h3w) h3b h3s]

/-- C4: a registered instance sending the parseable timestamp
`253402300800` (one past year 9999), far outside the window, is
rejected as a malformed timestamp — not with the out-of-window reason
the claim requires for every parseable out-of-window timestamp. -/
theorem distinct_rejection_reasons_counterexample :
    pyInt "253402300800" = some 253402300800 ∧
    300 < ((1760227200 : Int) - 253402300800).natAbs ∧
    authenticate_agent (fun x => if x = "i" then some "k" else none) "i"
        "253402300800" "sig" ⟨"POST", "/v1/agent/metrics", ""⟩ []
        1760227200 = .rejected .malformedTimestamp ∧
    AuthReason.malformedTimestamp ≠ AuthReason.timestampOutOfWindow := by
  exact ⟨by decide, by decide, by decide, by decide⟩

theorem distinct_rejection_reasons_witness :
    (fun x => if x = "i" then some "k" else (none : Option String)) "i" =
      some "k" ∧
    authenticate_agent (fun x => if x = "i" then some "k" else none) "i"
        "not-a-number" "wrong" ⟨"POST", "/v1/agent/metrics", ""⟩ [] 1000 =
      .rejected .malformedTimestamp ∧
    authenticate_agent (fun x => if x = "i" then some "k" else none) "i"
        "1301" "wrong" ⟨"POST", "/v1/agent/metrics", ""⟩ [] 1000 =
      .rejected .timestampOutOfWindow ∧
    authenticate_agent (fun x => if x = "i" then some "k" else none) "i"
        "1000" "wrong" ⟨"POST", "/v1/agent/metrics", ""⟩ [] 1000 =
      .rejected .signatureMismatch :=
  have h := distinct_rejection_reasons
    (fun x => if x = "i" then some "k" else none) "i" "k" "not-a-number"
    "1301" "1000" "wrong" ⟨"POST", "/v1/agent/metrics", ""⟩ [] 1000 1301
    1000 "" (by decide) (by decide) (by decide) (by decide) (by decide)
    (by decide) (by decide) (by decide) (by decide) (by decide) (by decide)
  ⟨by decide, h.1, h.2.1, h.2.2.1⟩

/-- C5 (corrected): the verifier returns a boolean — false on any
mismatch or invalid timestamp, true on success — and raises no
exception, provided the parsed timestamp (if any) avoids
`datetime.fromtimestamp`'s uncaught `OSError`/`OverflowError` bands and
the body is valid UTF-8.  The unrestricted claim is false: a large
parseable integer timestamp makes `fromtimestamp` raise an uncaught
`OSError` (see the counterexample), and a non-UTF-8 body raises
`UnicodeDecodeError` from `body_bytes.decode`. -/
theorem verify_total (now : Int) (secret ts sig : String) (req : Request)
    (body : List Nat) (hts : tsSafe ts = true)
    (hb : (decodeUtf8 body).isSome = true) :
    ((verify_hmac_signature now secret ts sig req body).toBool).isSome
      = true := by
  unfold tsSafe at hts
  cases hp : pyInt ts with
  | none =>
    have htc : timestamp_check now ts = .retMalformed := by
      simp only [timestamp_check, hp]
    have hv : verify_hmac_signature now secret ts sig req body =
        .invalidTimestampFormat := by
      simp only [verify_hmac_signature, htc]
    rw [hv]; rfl
  | some t =>
    rw [hp] at hts
    have hband := of_decide_eq_true hts
    by_cases hok : -62135596800 ≤ t ∧ t ≤ 253402300799
    · have hfr : fromtimestampResult t = .ok := by
        unfold fromtimestampResult
        rw [if_pos hok]
      by_cases hw : 300 < (now - t).natAbs
      · have htc := timestamp_check_window now t ts hp hfr hw
        have hv : verify_hmac_signature now secret ts sig req body =
            .timestampOutOfWindow := by
          simp only [verify_hmac_signature, htc]
        rw [hv]; rfl
      · have htc := timestamp_check_pass now t ts hp hfr (by omega)
        cases hd : decodeUtf8 body with
        | none => rw [hd] at hb; simp at hb
        | some s =>
          rw [verify_eq_of_pass now secret ts sig req body s htc hd]
          split <;> rfl
    · have hfr : fromtimestampResult t = .valueError := by
        unfold fromtimestampResult
        rw [if_neg hok, if_pos hband]
      have htc : timestamp_check now ts = .retMalformed := by
        simp only [timestamp_check, hp, hfr]
      have hv : verify_hmac_signature now secret ts sig req body =
          .invalidTimestampFormat := by
        simp only [verify_hmac_signature, htc]
      rw [hv]; rfl

/-- C5: the timestamp header "9223372036854775807" parses as an
integer, but `datetime.fromtimestamp` raises an uncaught `OSError`, so
`verify_hmac_signature` raises instead of returning a boolean. -/
theorem verify_total_counterexample :
    verify_hmac_signature 1760227200 "k" "9223372036854775807" "sig"
        ⟨"POST", "/v1/agent/metrics", ""⟩ [] = .raised .osError ∧
    (VerifyResult.raised PyExc.osError).toBool = none := by
  exact ⟨by decide, rfl⟩

theorem verify_total_witness :
    tsSafe "not-a-number" = true ∧
    (decodeUtf8 []).isSome = true ∧
    ((verify_hmac_signature 0 "k" "not-a-number" "sig"
        ⟨"POST", "/v1/agent/metrics", ""⟩ []).toBool).isSome = true :=
  ⟨by decide, by decide,
    verify_total 0 "k" "not-a-number" "sig"
      ⟨"POST", "/v1/agent/metrics", ""⟩ [] (by decide) (by decide)⟩

/-- C6 (confirmed): an instance identifier absent from the key registry
is rejected with the unknown-instance reason; the result is the same
for every timestamp header, signature header, body and server time (the
statement holds with all of them universally quantified and a constant
right-hand side), and the branch returns before any HMAC computation. -/
theorem unknown_instance_rejected (registry : String → Option String)
    (iid ts sig : String) (req : Request) (body : List Nat) (now : Int)
    (h : registry iid = none) :
    authenticate_agent registry iid ts sig req body now =
      .rejected .unknownInstance := by
  simp only [authenticate_agent, h]

theorem unknown_instance_rejected_witness :
    (fun _ : String => (none : Option String)) "ghost" = none ∧
    authenticate_agent (fun _ => none) "ghost" "1760227200" "sig"
        ⟨"POST", "/v1/agent/metrics", ""⟩ [1] 0 =
      .rejected .unknownInstance :=
  ⟨rfl,
    unknown_instance_rejected (fun _ => none) "ghost" "1760227200" "sig"
      ⟨"POST", "/v1/agent/metrics", ""⟩ [1] 0 rfl⟩

end VMMonitor

namespace VMMonitor

/-- C7 (confirmed): one pass of the Authentication Gate leaves the key
registry (the only server state the gate touches) unchanged, and a
previously authenticated request replayed unchanged — same headers,
same body — while its timestamp is still inside the validity window is
authenticated again: no nonce or seen-signature state exists to stop
it. -/
theorem gate_readonly_replay (registry : String → Option String)
    (r : SignedRequest) (now1 now2 : Int)
    (hauth : (gateStep registry r now1).1 = .authenticated r.instanceId)
    (hwin : timestamp_check now2 r.timestamp = .pass) :
    (gateStep registry r now1).2 = registry ∧
    (gateStep (gateStep registry r now1).2 r now2).1 =
      .authenticated r.instanceId := by
  refine ⟨rfl, ?_⟩
  simp only [gateStep] at hauth ⊢
  cases hk : registry r.instanceId with
  | none =>
    have : authenticate_agent registry r.instanceId r.timestamp r.signature
        r.request r.rawBody now1 = .rejected .unknownInstance := by
      simp only [authenticate_agent, hk]
    rw [this] at hauth
    exact absurd hauth (by simp)
  | some k =>
    by_cases hke : k = ""
    · have : authenticate_agent registry r.instanceId r.timestamp r.signature
          r.request r.rawBody now1 = .rejected .unknownInstance := by
        simp only [authenticate_agent, hk]
        rw [if_pos hke]
      rw [this] at hauth
      exact absurd hauth (by simp)
    · rw [authenticate_of_verify registry r.instanceId r.timestamp
        r.signature k r.request r.rawBody now1 hk hke] at hauth
      rw [authenticate_of_verify registry r.instanceId r.timestamp
        r.signature k r.request r.rawBody now2 hk hke]
      have hv : verify_hmac_signature now1 k r.timestamp r.signature
          r.request r.rawBody = .valid := by
        cases hvv : verify_hmac_signature now1 k r.timestamp r.signature
            r.request r.rawBody with
        | valid => rfl
        | raised e => rw [hvv] at hauth; simp at hauth
        | invalidTimestampFormat => rw [hvv] at hauth; simp at hauth
        | timestampOutOfWindow => rw [hvv] at hauth; simp at hauth
        | mismatch => rw [hvv] at hauth; simp at hauth
      obtain ⟨s, hd, hcmp⟩ := verify_valid_elim now1 k r.timestamp
        r.signature r.request r.rawBody hv
      have hv2 : verify_hmac_signature now2 k r.timestamp r.signature
          r.request r.rawBody = .valid := by
        rw [verify_eq_of_pass now2 k r.timestamp r.signature r.request
          r.rawBody s hwin hd, if_pos hcmp]
      rw [hv2]

theorem gate_readonly_replay_witness :
    (gateStep (fun x => if x = "i" then some "k" else none)
        ⟨"i", "1760227200",
          b64encode (computeSignature "k" "1760227200" "POST"
            "/v1/agent/metrics" ""),
          ⟨"POST", "/v1/agent/metrics", ""⟩, []⟩ 1760227200).1 =
      .authenticated "i" ∧
    timestamp_check 1760227300 "1760227200" = .pass ∧
    ((gateStep (fun x => if x = "i" then some "k" else none)
        ⟨"i", "1760227200",
          b64encode (computeSignature "k" "1760227200" "POST"
            "/v1/agent/metrics" ""),
          ⟨"POST", "/v1/agent/metrics", ""⟩, []⟩ 1760227200).2 =
      (fun x => if x = "i" then some "k" else none) ∧
    (gateStep ((gateStep (fun x => if x = "i" then some "k" else none)
        ⟨"i", "1760227200",
          b64encode (computeSignature "k" "1760227200" "POST"
            "/v1/agent/metrics" ""),
          ⟨"POST", "/v1/agent/metrics", ""⟩, []⟩ 1760227200).2)
        ⟨"i", "1760227200",
          b64encode (computeSignature "k" "1760227200" "POST"
            "/v1/agent/metrics" ""),
          ⟨"POST", "/v1/agent/metrics", ""⟩, []⟩ 1760227300).1 =
      .authenticated "i") :=
  ⟨by decide, by decide,
    gate_readonly_replay (fun x => if x = "i" then some "k" else none)
      ⟨"i", "1760227200",
        b64encode (computeSignature "k" "1760227200" "POST"
          "/v1/agent/metrics" ""),
        ⟨"POST", "/v1/agent/metrics", ""⟩, []⟩ 1760227200 1760227300
      (by decide) (by decide)⟩

/-- C9 (corrected): a request missing any of the three required headers
is rejected by the framework's header validation (a 422 client error)
before `authenticate_agent` runs — the verdict is `missingHeader` for
every registry, request, body and clock, so none of the authentication
steps is reached.  The claim's stronger statement about *empty* header
values is false: an empty string is a present header, passes extraction
and reaches the secret lookup, where it produces `UnknownInstance` (see
the counterexample). -/
theorem missing_header_rejected (registry : String → Option String)
    (instanceIdHeader timestampHeader signatureHeader : Option String)
    (req : Request) (body : List Nat) (now : Int)
    (h : instanceIdHeader = none ∨ timestampHeader = none ∨
      signatureHeader = none) :
    gate registry instanceIdHeader timestampHeader signatureHeader req
      body now = .missingHeader := by
  rcases instanceIdHeader with _ | i
  · rfl
  · rcases timestampHeader with _ | t
    · rfl
    · rcases signatureHeader with _ | s
      · rfl
      · rcases h with h | h | h <;> simp at h

/-- C9: an empty (but present) instance-identifier header is not
rejected as a precondition failure: it reaches the secret lookup and
yields the `UnknownInstance` authentication rejection, which the claim
says can never happen for an empty header. -/
theorem missing_header_rejected_counterexample :
    gate (fun _ => none) (some "") (some "1760227200") (some "sig")
        ⟨"POST", "/v1/agent/metrics", ""⟩ [] 1760227200 =
      .auth (.rejected .unknownInstance) ∧
    GateOutcome.auth (.rejected .unknownInstance) ≠ .missingHeader := by
  exact ⟨by decide, by decide⟩

theorem missing_header_rejected_witness :
    ((none : Option String) = none ∨ (some "1760227200" : Option String) =
      none ∨ (some "sig" : Option String) = none) ∧
    gate (fun _ => none) none (some "1760227200") (some "sig")
      ⟨"POST", "/v1/agent/metrics", ""⟩ [] 0 = .missingHeader :=
  ⟨Or.inl rfl,
    missing_header_rejected (fun _ => none) none (some "1760227200")
      (some "sig") ⟨"POST", "/v1/agent/metrics", ""⟩ [] 0 (Or.inl rfl)⟩

/-- C10 (confirmed): `register_agent` overwrites the stored key for an
already-registered instance unconditionally (the route carries no
authentication dependency); afterwards the gate authenticates a request
signed with the new key, and rejects with `signatureMismatch` a request
carrying the old key's signature — which differs from the new key's
signature for these messages (hypothesis `hdiff`, checked concretely in
the witness; equal HMACs under different keys would be an SHA-256
collision). -/
theorem reregistration_overwrites (registry : String → Option String)
    (iid oldKey newKey ts : String) (req : Request) (body : List Nat)
    (now t : Int) (s : String)
    (hold : registry iid = some oldKey) (hne : newKey ≠ "")
    (hp : pyInt ts = some t) (hr : fromtimestampResult t = .ok)
    (hw : (now - t).natAbs ≤ 300) (hb : decodeUtf8 body = some s)
    (hdiff : utf8Encode (b64encode
        (computeSignature oldKey ts req.method req.path s)) ≠
      utf8Encode (b64encode
        (computeSignature newKey ts req.method req.path s))) :
    register_agent registry iid newKey iid = some newKey
    ∧ authenticate_agent (register_agent registry iid newKey) iid ts
        (b64encode (computeSignature newKey ts req.method req.path s))
        req body now = .authenticated iid
    ∧ authenticate_agent (register_agent registry iid newKey) iid ts
        (b64encode (computeSignature oldKey ts req.method req.path s))
        req body now = .rejected .signatureMismatch := by
  have hlook : register_agent registry iid newKey iid = some newKey := by
    simp [register_agent]
  refine ⟨hlook, ?_, ?_⟩
  · rw [authenticate_of_verify (register_agent registry iid newKey) iid ts
      _ newKey req body now hlook hne]
    rw [verify_self_valid now t newKey ts req body s hp hr hw hb]
  · rw [authenticate_of_verify (register_agent registry iid newKey) iid ts
      _ newKey req body now hlook hne]
    rw [verify_mismatch now newKey ts
      (b64encode (computeSignature oldKey ts req.method req.path s))
      req body s (timestamp_check_pass now t ts hp hr hw) hb hdiff]

theorem reregistration_overwrites_witness :
    (fun x => if x = "i" then some "old" else (none : Option String)) "i" =
      some "old" ∧
    utf8Encode (b64encode (computeSignature "old" "1760227200"
        (Request.mk "POST" "/v1/agent/metrics" "").method
        (Request.mk "POST" "/v1/agent/metrics" "").path "")) ≠
      utf8Encode (b64encode (computeSignature "new" "1760227200"
        (Request.mk "POST" "/v1/agent/metrics" "").method
        (Request.mk "POST" "/v1/agent/metrics" "").path "")) ∧
    (register_agent (fun x => if x = "i" then some "old" else none) "i"
        "new" "i" = some "new"
    ∧ authenticate_agent
        (register_agent (fun x => if x = "i" then some "old" else none)
          "i" "new") "i" "1760227200"
        (b64encode (computeSignature "new" "1760227200"
          (Request.mk "POST" "/v1/agent/metrics" "").method
          (Request.mk "POST" "/v1/agent/metrics" "").path ""))
        ⟨"POST", "/v1/agent/metrics", ""⟩ [] 1760227200 =
      .authenticated "i"
    ∧ authenticate_agent
        (register_agent (fun x => if x = "i" then some "old" else none)
          "i" "new") "i" "1760227200"
        (b64encode (computeSignature "old" "1760227200"
          (Request.mk "POST" "/v1/agent/metrics" "").method
          (Request.mk "POST" "/v1/agent/metrics" "").path ""))
        ⟨"POST", "/v1/agent/metrics", ""⟩ [] 1760227200 =
      .rejected .signatureMismatch) :=
  ⟨by decide, by decide,
    reregistration_overwrites
      (fun x => if x = "i" then some "old" else none) "i" "old" "new"
      "1760227200" ⟨"POST", "/v1/agent/metrics", ""⟩ [] 1760227200
      1760227200 "" (by decide) (by decide) (by decide) (by decide)
      (by decide) (by decide) (by decide)⟩

end VMMonitor
